import Mathlib

/-!
# The worker roster panel (`src/src/components/WorkerList.jsx`)

A shallow embedding of the `WorkerList` React component.

* The six `useState` cells become the fields of `State`; the two props the
  component reads (`selectedWorker`) or calls (`onSelectWorker`) become
  `Props` and the `Effect.select` event.
* Every `async` handler is embedded as a function of the outcome of each
  `fetch` it awaits (the environment's answer is an explicit argument) and
  returns the state after the handler has run to completion together with the
  ordered trace of the requests and callback calls it made.  Handlers are
  therefore atomic here: interleavings of two handlers in flight are not part
  of the model.  `console.error` calls are not recorded.
* The JSX returned by the component becomes the value `render props s`.
* Worker ids are numbers or strings and a parsed list payload is a sequence
  of workers.  A body that does not parse is the `reject` case of `JsonBody`;
  a parsed body whose `error` field is read is a `Parsed`: either `null`, on
  which the read throws, or a value whose `error` field is an optional string.
-/

namespace WorkerList

/-! ## Data model -/

/-- Worker identifier as the JSON payload delivers it: a number or a string.
Equality of two identifiers is JavaScript strict equality (a number never
equals a string). -/
inductive WorkerId where
  | num (n : Int)
  | str (s : String)
  deriving DecidableEq, Repr

/-- JavaScript truthiness of an identifier: the number zero and the empty
string are falsy, every other number or string is truthy. -/
def WorkerId.truthy : WorkerId → Bool
  | .num n => decide (n ≠ 0)
  | .str s => decide (s ≠ "")

/-- Text that a template literal or a JSX text node produces for an identifier. -/
def WorkerId.text : WorkerId → String
  | .num n => toString n
  | .str s => s

/-- One element of the list payload, with the five fields the component reads. -/
structure Worker where
  id : WorkerId
  name : String
  designation : String
  daily_wage : Int
  status : String
  deriving DecidableEq, Repr

/-- The payload handed over by the add dialog; the component only serialises it. -/
structure NewWorker where
  json : String
  deriving DecidableEq, Repr

/-- The six state cells of the component, lines 6 to 11. -/
structure State where
  isModalOpen : Bool
  activeDropdown : Option WorkerId
  workers : List Worker
  loading : Bool
  error : Option String
  showDeleteConfirm : Option WorkerId
  deriving DecidableEq, Repr

/-- Initial values of the state cells, lines 6 to 11. -/
def State.initial : State :=
  { isModalOpen := false
    activeDropdown := none
    workers := []
    loading := true
    error := none
    showDeleteConfirm := none }

/-- The props read by the component. -/
structure Props where
  selectedWorker : Option Worker
  deriving DecidableEq, Repr

/-! ## Requests, responses and traces -/

/-- HTTP method of a request. -/
inductive Method where
  | GET
  | POST
  | PATCH
  | DELETE
  deriving DecidableEq, Repr

/-- Request body: absent, the serialised new worker, or the object with the
single field `status`. -/
inductive RequestBody where
  | absent
  | worker (w : NewWorker)
  | status (newStatus : String)
  deriving DecidableEq, Repr

/-- A call of `fetch`. -/
structure Request where
  method : Method
  url : String
  body : RequestBody
  deriving DecidableEq, Repr

/-- The collection URL used by lines 19 and 37. -/
def workersUrl : String := "http://localhost:3000/api/workers"

/-- The request of line 19: `GET /api/workers`. -/
def listRequest : Request :=
  { method := .GET, url := workersUrl, body := .absent }

/-- The request of lines 37 to 43. -/
def addRequest (newWorker : NewWorker) : Request :=
  { method := .POST, url := workersUrl, body := .worker newWorker }

/-- The request of lines 57 to 63. -/
def statusRequest (workerId : WorkerId) (newStatus : String) : Request :=
  { method := .PATCH
    url := workersUrl ++ "/" ++ workerId.text ++ "/status"
    body := .status newStatus }

/-- The request of lines 77 to 79. -/
def deleteRequest (workerId : WorkerId) : Request :=
  { method := .DELETE, url := workersUrl ++ "/" ++ workerId.text, body := .absent }

/-- Observable event of a handler: a `fetch` call or a call of the
`onSelectWorker` callback. -/
inductive Effect where
  | request (r : Request)
  | select (w : Option Worker)
  deriving DecidableEq, Repr

/-- Result of a handler: the state once it has finished and what it emitted,
in order. -/
structure Outcome where
  state : State
  trace : List Effect
  deriving DecidableEq, Repr

/-- Result of `await response.json()`: the promise rejects with an error
carrying `message`, or resolves to `data`. -/
inductive JsonBody (α : Type) where
  | reject (message : String)
  | value (data : α)
  deriving DecidableEq, Repr

/-- JavaScript `a || d` for an optional string `a` and a string `d`:
`undefined` and the empty string are falsy. -/
def orElse (a : Option String) (d : String) : String :=
  match a with
  | some s => if s = "" then d else s
  | none => d

/-- A parsed body of which a handler reads the field `error` (lines 22 and
84).  `null` is the JSON value null: reading a property of it throws a
TypeError, whose message (fixed by the JavaScript engine) is carried.
`fields` is any other value; its `error` field is an optional string. -/
inductive Parsed where
  | null (typeError : String)
  | fields (error : Option String)
  deriving DecidableEq, Repr

/-- The expression `data.error || d` inside `new Error(...)`, lines 22 and
84: the message of the error that ends up thrown, either the TypeError of
the property read or the error built from the field or the default `d`. -/
def Parsed.thrown (data : Parsed) (d : String) : String :=
  match data with
  | .null typeError => typeError
  | .fields error => orElse error d

/-- Outcome of the list request.  `networkError` is a rejected `fetch`,
`ok` a response with `response.ok` true whose body, when it parses, is the
sequence of workers, `notOk` a response with `response.ok` false. -/
inductive ListResult where
  | networkError (message : String)
  | ok (body : JsonBody (List Worker))
  | notOk (body : JsonBody Parsed)
  deriving DecidableEq, Repr

/-- Outcome of the create and of the status request: only `response.ok` is read. -/
inductive MutationResult where
  | networkError (message : String)
  | response (ok : Bool)
  deriving DecidableEq, Repr

/-- Outcome of the delete request: `response.ok` and the body. -/
inductive DeleteResult where
  | networkError (message : String)
  | response (ok : Bool) (body : JsonBody Parsed)
  deriving DecidableEq, Repr

/-! ## The handlers -/

/-- The `try` block of `fetchWorkers`, lines 19 to 24: either the message of
the error thrown, or the parsed payload. -/
def fetchWorkersTry (r : ListResult) : Except String (List Worker) :=
  match r with
  | .networkError m => .error m
  | .notOk (.reject m) => .error m
  | .notOk (.value errorData) => .error (errorData.thrown "Failed to fetch workers")
  | .ok (.reject m) => .error m
  | .ok (.value data) => .ok data

/-- Lines 17 to 33. -/
def fetchWorkers (r : ListResult) (s : State) : Outcome :=
  let s1 : State :=
    match fetchWorkersTry r with
    | .ok data => { s with workers := data, error := none }
    | .error m => { s with error := some ("Failed to load workers: " ++ m) }
  { state := { s1 with loading := false }, trace := [.request listRequest] }

/-- Lines 35 to 53.  `post` answers the create request, `reload` the list
request that follows it when it is issued. -/
def handleAddWorker (newWorker : NewWorker) (post : MutationResult) (reload : ListResult)
    (s : State) : Outcome :=
  match post with
  | .response true =>
    let o := fetchWorkers reload s
    { state := { o.state with isModalOpen := false }
      trace := .request (addRequest newWorker) :: o.trace }
  | .response false =>
    { state := { s with error := some "Failed to add worker" }
      trace := [.request (addRequest newWorker)] }
  | .networkError _ =>
    { state := { s with error := some "Failed to add worker" }
      trace := [.request (addRequest newWorker)] }

/-- Lines 55 to 73.  `patch` answers the status request, `reload` the list
request that follows it when it is issued. -/
def handleStatusChange (workerId : WorkerId) (newStatus : String) (patch : MutationResult)
    (reload : ListResult) (s : State) : Outcome :=
  match patch with
  | .response true =>
    let o := fetchWorkers reload s
    { state := { o.state with activeDropdown := none }
      trace := .request (statusRequest workerId newStatus) :: o.trace }
  | .response false =>
    { state := { s with error := some "Failed to update status" }
      trace := [.request (statusRequest workerId newStatus)] }
  | .networkError _ =>
    { state := { s with error := some "Failed to update status" }
      trace := [.request (statusRequest workerId newStatus)] }

/-- Lines 77 to 85 of `handleDeleteWorker`: the body is parsed first (line
81), then `response.ok` is tested (line 83).  The result is the message of
the error thrown, or normal completion. -/
def handleDeleteWorkerTry (del : DeleteResult) : Except String Unit :=
  match del with
  | .networkError m => .error m
  | .response _ (.reject m) => .error m
  | .response false (.value data) => .error (data.thrown "Failed to delete worker")
  | .response true (.value _) => .ok ()

/-- Lines 75 to 97.  `del` answers the delete request, `reload` the list
request that follows it when it is issued. -/
def handleDeleteWorker (props : Props) (workerId : WorkerId) (del : DeleteResult)
    (reload : ListResult) (s : State) : Outcome :=
  match handleDeleteWorkerTry del with
  | .ok () =>
    let o := fetchWorkers reload s
    { state := { o.state with showDeleteConfirm := none }
      trace := .request (deleteRequest workerId) ::
        ((if props.selectedWorker.map Worker.id = some workerId then [Effect.select none] else [])
          ++ o.trace) }
  | .error m =>
    { state := { s with error := some (orElse (some m) "Failed to delete worker") }
      trace := [.request (deleteRequest workerId)] }

/-! ## Click handlers written inline in the JSX -/

/-- Line 105. -/
def clickAddWorker (s : State) : Outcome :=
  { state := { s with isModalOpen := true }, trace := [] }

/-- Line 113. -/
def closeModal (s : State) : Outcome :=
  { state := { s with isModalOpen := false }, trace := [] }

/-- Line 128. -/
def clickRowBody (worker : Worker) (s : State) : Outcome :=
  { state := s, trace := [.select (some worker)] }

/-- Line 146. -/
def clickMenuTrigger (worker : Worker) (s : State) : Outcome :=
  { state :=
      { s with activeDropdown := if s.activeDropdown = some worker.id then none else some worker.id }
    trace := [] }

/-- Line 156. -/
def clickSetActive (worker : Worker) (patch : MutationResult) (reload : ListResult)
    (s : State) : Outcome :=
  handleStatusChange worker.id "Active" patch reload s

/-- Line 166. -/
def clickSetInactive (worker : Worker) (patch : MutationResult) (reload : ListResult)
    (s : State) : Outcome :=
  handleStatusChange worker.id "Inactive" patch reload s

/-- Lines 176 to 179. -/
def clickDelete (worker : Worker) (s : State) : Outcome :=
  { state := { s with showDeleteConfirm := some worker.id, activeDropdown := none }
    trace := [] }

/-- Line 201: the confirm button calls `handleDeleteWorker(showDeleteConfirm)`.
The button is part of the overlay, which is rendered only while an id is
stored; the branch without a stored id cannot be reached by a click and is
given the unchanged state and the empty trace. -/
def clickConfirmDelete (props : Props) (del : DeleteResult) (reload : ListResult)
    (s : State) : Outcome :=
  match s.showDeleteConfirm with
  | some workerId => handleDeleteWorker props workerId del reload s
  | none => { state := s, trace := [] }

/-- Line 207. -/
def clickCancel (s : State) : Outcome :=
  { state := { s with showDeleteConfirm := none }, trace := [] }

/-! ## Rendering -/

/-- The dropdown of a row, lines 153 to 185, with the two highlight tests of
lines 158 and 168. -/
structure Menu where
  activeHighlighted : Bool
  inactiveHighlighted : Bool
  deriving DecidableEq, Repr

/-- One rendered row, lines 119 to 189. -/
structure Row where
  key : WorkerId
  highlighted : Bool
  name : String
  designation : String
  daily_wage : Int
  status : String
  badgeGreen : Bool
  menu : Option Menu
  deriving DecidableEq, Repr

/-- What the expression `showDeleteConfirm && (...)` of line 192 renders:
nothing (for `null` and for the empty string), the text of a falsy number,
or the confirmation overlay holding the pending id. -/
inductive OverlaySlot where
  | nothing
  | text (t : String)
  | overlay (pending : WorkerId)
  deriving DecidableEq, Repr

/-- The three shapes of the component output: the loading paragraph (line
99), the error paragraph (line 100), or the panel (lines 102 to 217) with
the Add Worker button, the add dialog flag, the rows and the overlay slot. -/
inductive View where
  | loading
  | error (message : String)
  | panel (modalOpen : Bool) (rows : List Row) (slot : OverlaySlot)
  deriving DecidableEq, Repr

/-- Row renderer, the arrow function of lines 118 to 190. -/
def renderRow (props : Props) (s : State) (worker : Worker) : Row :=
  { key := worker.id
    highlighted := decide (props.selectedWorker.map Worker.id = some worker.id)
    name := worker.name
    designation := worker.designation
    daily_wage := worker.daily_wage
    status := worker.status
    badgeGreen := decide (worker.status = "Active")
    menu :=
      if s.activeDropdown = some worker.id then
        some { activeHighlighted := decide (worker.status = "Active")
               inactiveHighlighted := decide (worker.status = "Inactive") }
      else none }

/-- Line 192. -/
def renderOverlaySlot (showDeleteConfirm : Option WorkerId) : OverlaySlot :=
  match showDeleteConfirm with
  | none => .nothing
  | some id =>
    if id.truthy then .overlay id
    else
      match id with
      | .num n => .text (toString n)
      | .str _ => .nothing

/-- Lines 102 to 217. -/
def renderPanel (props : Props) (s : State) : View :=
  .panel s.isModalOpen (s.workers.map (renderRow props s)) (renderOverlaySlot s.showDeleteConfirm)

/-- Lines 99 to 217: the two guards, then the panel.  The guard of line 100
is a truthiness test, so an empty error string does not take it. -/
def render (props : Props) (s : State) : View :=
  if s.loading then .loading
  else
    match s.error with
    | some e => if e = "" then renderPanel props s else .error e
    | none => renderPanel props s

/-- The rows a view shows (none outside the panel). -/
def View.rows : View → List Row
  | .panel _ rows _ => rows
  | _ => []

/-- Whether a view contains the Add Worker button of lines 104 to 109. -/
def View.hasAddButton : View → Bool
  | .panel _ _ _ => true
  | _ => false

/-- Whether a view shows the confirmation overlay, and for which id. -/
def View.overlay : View → Option WorkerId
  | .panel _ _ (.overlay id) => some id
  | _ => none

/-- Number of list reloads, `GET /api/workers`, in a trace. -/
def reloads (t : List Effect) : Nat :=
  t.count (.request listRequest)

/-- The calls of `onSelectWorker` in a trace, in order. -/
def selections : List Effect → List (Option Worker)
  | [] => []
  | .select w :: t => w :: selections t
  | .request _ :: t => selections t

/-- The requests of a trace, in order. -/
def requests : List Effect → List Request
  | [] => []
  | .request r :: t => r :: requests t
  | .select _ :: t => requests t

/-- HTTP-level success of the create or status request: `fetch` resolved and
`response.ok` is true. -/
def MutationResult.succeeded : MutationResult → Bool
  | .response ok => ok
  | .networkError _ => false

/-- Success of the list request: `fetch` resolved, `response.ok` is true and
the body parsed, so that line 25 is reached. -/
def ListResult.succeeded : ListResult → Bool
  | .ok (.value _) => true
  | .ok (.reject _) => false
  | .notOk _ => false
  | .networkError _ => false

/-- HTTP-level success of the delete request: `fetch` resolved and
`response.ok` is true, whatever the body. -/
def DeleteResult.succeeded : DeleteResult → Bool
  | .response ok _ => ok
  | .networkError _ => false

/-- Letters of a string in lower case, used to compare a message with a
phrase irrespective of capitalisation. -/
def lowerChars (s : String) : List Char :=
  s.toList.map Char.toLower

/-! ## Sample values -/

/-- A worker whose id is the number one. -/
def asha : Worker :=
  { id := .num 1, name := "Asha", designation := "Mason", daily_wage := 650, status := "Active" }

/-- A worker whose id is the number two. -/
def bala : Worker :=
  { id := .num 2, name := "Bala", designation := "Helper", daily_wage := 450, status := "Inactive" }

/-- A worker whose id is the number zero. -/
def zero : Worker :=
  { id := .num 0, name := "Chitra", designation := "Welder", daily_wage := 700, status := "Active" }

/-- A worker whose id is the empty string. -/
def blank : Worker :=
  { id := .str "", name := "Dev", designation := "Painter", daily_wage := 600, status := "Active" }

/-- A loaded roster of two workers with nothing open. -/
def loaded : State :=
  { isModalOpen := false
    activeDropdown := none
    workers := [asha, bala]
    loading := false
    error := none
    showDeleteConfirm := none }

/-- The loaded roster with the confirmation overlay open for worker one. -/
def confirming : State :=
  { loaded with showDeleteConfirm := some (.num 1) }

/-- A loaded roster holding the two workers with falsy ids. -/
def falsyRoster : State :=
  { loaded with workers := [zero, blank] }

/-! ## General facts about the handlers -/

theorem orElse_ne_empty (a : Option String) (d : String) (hd : d ≠ "") : orElse a d ≠ "" := by
  unfold orElse
  cases a with
  | none => exact hd
  | some x =>
    by_cases hx : x = ""
    · simpa [hx] using hd
    · simp [hx]

theorem fetchWorkers_trace (r : ListResult) (s : State) :
    (fetchWorkers r s).trace = [.request listRequest] := rfl

theorem fetchWorkers_frame (r : ListResult) (s : State) :
    (fetchWorkers r s).state.isModalOpen = s.isModalOpen ∧
    (fetchWorkers r s).state.activeDropdown = s.activeDropdown ∧
    (fetchWorkers r s).state.showDeleteConfirm = s.showDeleteConfirm ∧
    (fetchWorkers r s).state.loading = false := by
  unfold fetchWorkers
  cases fetchWorkersTry r <;> simp

theorem handleDeleteWorkerTry_of_not_succeeded (del : DeleteResult)
    (h : del.succeeded = false) : ∃ m, handleDeleteWorkerTry del = .error m := by
  cases del with
  | networkError m => exact ⟨m, rfl⟩
  | response ok body =>
    have hok : ok = false := h
    subst hok
    cases body with
    | reject m => exact ⟨m, rfl⟩
    | value data => exact ⟨_, rfl⟩

theorem handleDeleteWorker_of_error (props : Props) (workerId : WorkerId) (del : DeleteResult)
    (reload : ListResult) (s : State) (m : String) (h : handleDeleteWorkerTry del = .error m) :
    handleDeleteWorker props workerId del reload s =
      { state := { s with error := some (orElse (some m) "Failed to delete worker") }
        trace := [.request (deleteRequest workerId)] } := by
  simp [handleDeleteWorker, h]

theorem handleDeleteWorker_of_ok (props : Props) (workerId : WorkerId) (del : DeleteResult)
    (reload : ListResult) (s : State) (h : handleDeleteWorkerTry del = .ok ()) :
    handleDeleteWorker props workerId del reload s =
      { state := { (fetchWorkers reload s).state with showDeleteConfirm := none }
        trace := .request (deleteRequest workerId) ::
          ((if props.selectedWorker.map Worker.id = some workerId then [Effect.select none] else [])
            ++ (fetchWorkers reload s).trace) } := by
  simp [handleDeleteWorker, h]

/-- Text of the error slot after a failed delete, case by case: the error
string of a parsed non-success body when non-empty, the generic text when
the parsed body has none or an empty one, otherwise the message of the
TypeError, of the parse error or of the transport failure (the generic text
when that message is empty). -/
theorem handleDeleteWorker_error_text (props : Props) (workerId : WorkerId) (ok : Bool)
    (reload : ListResult) (s : State) (x m : String) :
    (x ≠ "" → (handleDeleteWorker props workerId (.response false (.value (.fields (some x))))
        reload s).state.error = some x) ∧
      (handleDeleteWorker props workerId (.response false (.value (.fields none)))
        reload s).state.error = some "Failed to delete worker" ∧
      (handleDeleteWorker props workerId (.response false (.value (.fields (some ""))))
        reload s).state.error = some "Failed to delete worker" ∧
      (handleDeleteWorker props workerId (.response false (.value (.null m)))
        reload s).state.error = some (orElse (some m) "Failed to delete worker") ∧
      (handleDeleteWorker props workerId (.response ok (.reject m))
        reload s).state.error = some (orElse (some m) "Failed to delete worker") ∧
      (handleDeleteWorker props workerId (.networkError m)
        reload s).state.error = some (orElse (some m) "Failed to delete worker") := by
  refine ⟨?_, ?_, ?_, rfl, ?_, rfl⟩
  · intro hx
    simp [handleDeleteWorker, handleDeleteWorkerTry, Parsed.thrown, orElse, hx]
  · simp [handleDeleteWorker, handleDeleteWorkerTry, Parsed.thrown, orElse]
  · simp [handleDeleteWorker, handleDeleteWorkerTry, Parsed.thrown, orElse]
  · cases ok <;> rfl

theorem render_of_error (props : Props) (s : State) (e : String) (hl : s.loading = false)
    (he : s.error = some e) (hne : e ≠ "") : render props s = .error e := by
  simp [render, hl, he, hne]

/-! ## Failed delete and the confirmation overlay -/

/-- C1, as stated, fails: with the overlay open for worker one, a delete
answered by a non-success response leaves `showDeleteConfirm` at that id
instead of clearing it, while the error message is set. -/
theorem failed_delete_keeps_pending_counterexample :
    (clickConfirmDelete ⟨none⟩ (.response false (.value (.fields none))) (.ok (.value [])) confirming).state.showDeleteConfirm
        ≠ none ∧
      (clickConfirmDelete ⟨none⟩ (.response false (.value (.fields none))) (.ok (.value [])) confirming).state.showDeleteConfirm
        = some (.num 1) ∧
      (clickConfirmDelete ⟨none⟩ (.response false (.value (.fields none))) (.ok (.value [])) confirming).state.error
        = some "Failed to delete worker" := by
  decide

/-- C1, amended: for every pending delete id, when the user confirms and the
DELETE request fails (non-success response or transport failure), the pending
id is left exactly as it was, the error slot is set to a non-empty message
(the text of the error thrown, or the generic one), and only the DELETE
request is emitted. -/
theorem failed_delete_keeps_pending (props : Props) (workerId : WorkerId) (del : DeleteResult)
    (reload : ListResult) (s : State) (hpending : s.showDeleteConfirm = some workerId)
    (hfail : del.succeeded = false) :
    (clickConfirmDelete props del reload s).state.showDeleteConfirm = some workerId ∧
      (∃ m, handleDeleteWorkerTry del = .error m ∧
        (clickConfirmDelete props del reload s).state.error =
          some (orElse (some m) "Failed to delete worker") ∧
        orElse (some m) "Failed to delete worker" ≠ "") ∧
      (clickConfirmDelete props del reload s).trace = [.request (deleteRequest workerId)] := by
  obtain ⟨m, hm⟩ := handleDeleteWorkerTry_of_not_succeeded del hfail
  have hstep : clickConfirmDelete props del reload s =
      handleDeleteWorker props workerId del reload s := by
    simp [clickConfirmDelete, hpending]
  rw [hstep, handleDeleteWorker_of_error props workerId del reload s m hm]
  refine ⟨hpending, ⟨m, hm, rfl, ?_⟩, rfl⟩
  exact orElse_ne_empty _ _ (by decide)

/-- The amended C1 at a concrete input: worker one is pending and the server
answers the DELETE request with a non-success response carrying an error
string. -/
theorem failed_delete_keeps_pending_witness :
    confirming.showDeleteConfirm = some (.num 1) ∧
      DeleteResult.succeeded (.response false (.value (.fields (some "Worker has attendance records"))))
        = false ∧
      (clickConfirmDelete ⟨none⟩ (.response false (.value (.fields (some "Worker has attendance records"))))
        (.ok (.value [])) confirming).state.showDeleteConfirm = some (.num 1) ∧
      (clickConfirmDelete ⟨none⟩ (.response false (.value (.fields (some "Worker has attendance records"))))
        (.ok (.value [])) confirming).trace = [.request (deleteRequest (.num 1))] :=
  ⟨rfl, rfl,
    (failed_delete_keeps_pending ⟨none⟩ (.num 1)
      (.response false (.value (.fields (some "Worker has attendance records")))) (.ok (.value []))
      confirming rfl rfl).1,
    (failed_delete_keeps_pending ⟨none⟩ (.num 1)
      (.response false (.value (.fields (some "Worker has attendance records")))) (.ok (.value []))
      confirming rfl rfl).2.2⟩

/-! ## Action errors and the error guard -/

/-- C2, as stated, fails: after a failed add from the loaded roster the
output is the error paragraph alone, with no worker row and no Add Worker
button. -/
theorem action_error_blocks_panel_counterexample :
    render ⟨none⟩ (handleAddWorker ⟨"Esha"⟩ (.response false) (.ok (.value [])) loaded).state
        = .error "Failed to add worker" ∧
      (render ⟨none⟩ (handleAddWorker ⟨"Esha"⟩ (.response false) (.ok (.value [])) loaded).state).rows
        = [] ∧
      (render ⟨none⟩ (handleAddWorker ⟨"Esha"⟩ (.response false) (.ok (.value [])) loaded).state).hasAddButton
        = false ∧
      (handleAddWorker ⟨"Esha"⟩ (.response false) (.ok (.value [])) loaded).state.workers
        = [asha, bala] := by
  decide

/-- C2, amended: in every state reached after a failed add, status change or
delete with the loading flag false, the rendered output is the error
paragraph alone, carrying the message the action set; it contains no worker
row and no Add Worker button.  The state itself differs from the prior one
in the error slot only: the worker collection, the loading flag, the
open-menu id, the pending-delete id and the add-dialog flag are unchanged. -/
theorem action_error_blocks_panel (props : Props) (s : State) (newWorker : NewWorker)
    (workerId : WorkerId) (newStatus : String) (post patch : MutationResult)
    (del : DeleteResult) (reload : ListResult) (hl : s.loading = false)
    (hpost : post.succeeded = false) (hpatch : patch.succeeded = false)
    (hdel : del.succeeded = false) :
    render props (handleAddWorker newWorker post reload s).state = .error "Failed to add worker" ∧
      render props (handleStatusChange workerId newStatus patch reload s).state
        = .error "Failed to update status" ∧
      (∃ m, (handleDeleteWorker props workerId del reload s).state.error = some m ∧
        render props (handleDeleteWorker props workerId del reload s).state = .error m) ∧
      (∀ o ∈ [handleAddWorker newWorker post reload s,
          handleStatusChange workerId newStatus patch reload s,
          handleDeleteWorker props workerId del reload s],
        (render props o.state).rows = [] ∧ (render props o.state).hasAddButton = false) ∧
      (handleAddWorker newWorker post reload s).state
        = { s with error := some "Failed to add worker" } ∧
      (handleStatusChange workerId newStatus patch reload s).state
        = { s with error := some "Failed to update status" } ∧
      (∃ m, (handleDeleteWorker props workerId del reload s).state = { s with error := some m }) ∧
      (∀ o ∈ [handleAddWorker newWorker post reload s,
          handleStatusChange workerId newStatus patch reload s,
          handleDeleteWorker props workerId del reload s],
        o.state.workers = s.workers ∧ o.state.loading = s.loading ∧
          o.state.activeDropdown = s.activeDropdown ∧
          o.state.showDeleteConfirm = s.showDeleteConfirm ∧
          o.state.isModalOpen = s.isModalOpen) := by
  have sadd : (handleAddWorker newWorker post reload s).state
      = { s with error := some "Failed to add worker" } := by
    cases post with
    | networkError m => rfl
    | response ok =>
      have hok : ok = false := hpost
      subst hok
      rfl
  have sst : (handleStatusChange workerId newStatus patch reload s).state
      = { s with error := some "Failed to update status" } := by
    cases patch with
    | networkError m => rfl
    | response ok =>
      have hok : ok = false := hpatch
      subst hok
      rfl
  obtain ⟨m, hm⟩ := handleDeleteWorkerTry_of_not_succeeded del hdel
  have sde : (handleDeleteWorker props workerId del reload s).state
      = { s with error := some (orElse (some m) "Failed to delete worker") } := by
    rw [handleDeleteWorker_of_error props workerId del reload s m hm]
  have hadd : render props (handleAddWorker newWorker post reload s).state
      = .error "Failed to add worker" := by
    rw [sadd]
    exact render_of_error _ _ _ hl rfl (by decide)
  have hst : render props (handleStatusChange workerId newStatus patch reload s).state
      = .error "Failed to update status" := by
    rw [sst]
    exact render_of_error _ _ _ hl rfl (by decide)
  have hde : render props (handleDeleteWorker props workerId del reload s).state
      = .error (orElse (some m) "Failed to delete worker") := by
    rw [sde]
    exact render_of_error _ _ _ hl rfl (orElse_ne_empty _ _ (by decide))
  refine ⟨hadd, hst, ⟨_, ?_, hde⟩, ?_, sadd, sst, ⟨_, sde⟩, ?_⟩
  · rw [sde]
  · intro o ho
    simp only [List.mem_cons, List.mem_singleton, List.not_mem_nil, or_false] at ho
    rcases ho with rfl | rfl | rfl
    · rw [hadd]; exact ⟨rfl, rfl⟩
    · rw [hst]; exact ⟨rfl, rfl⟩
    · rw [hde]; exact ⟨rfl, rfl⟩
  · intro o ho
    simp only [List.mem_cons, List.mem_singleton, List.not_mem_nil, or_false] at ho
    rcases ho with rfl | rfl | rfl
    · rw [sadd]; exact ⟨rfl, rfl, rfl, rfl, rfl⟩
    · rw [sst]; exact ⟨rfl, rfl, rfl, rfl, rfl⟩
    · rw [sde]; exact ⟨rfl, rfl, rfl, rfl, rfl⟩

/-- The amended C2 at a concrete input: from the loaded roster, an add and a
status change answered by a non-success response and a delete that meets a
transport failure. -/
theorem action_error_blocks_panel_witness :
    loaded.loading = false ∧
      MutationResult.succeeded (.response false) = false ∧
      DeleteResult.succeeded (.networkError "Failed to fetch") = false ∧
      render ⟨none⟩ (handleAddWorker ⟨"Esha"⟩ (.response false) (.ok (.value [])) loaded).state
        = .error "Failed to add worker" ∧
      render ⟨none⟩
        (handleStatusChange (.num 2) "Active" (.response false) (.ok (.value [])) loaded).state
        = .error "Failed to update status" ∧
      (handleAddWorker ⟨"Esha"⟩ (.response false) (.ok (.value [])) loaded).state
        = { loaded with error := some "Failed to add worker" } :=
  ⟨rfl, rfl, rfl,
    (action_error_blocks_panel ⟨none⟩ loaded ⟨"Esha"⟩ (.num 2) "Active" (.response false)
      (.response false) (.networkError "Failed to fetch") (.ok (.value [])) rfl rfl rfl rfl).1,
    (action_error_blocks_panel ⟨none⟩ loaded ⟨"Esha"⟩ (.num 2) "Active" (.response false)
      (.response false) (.networkError "Failed to fetch") (.ok (.value [])) rfl rfl rfl rfl).2.1,
    (action_error_blocks_panel ⟨none⟩ loaded ⟨"Esha"⟩ (.num 2) "Active" (.response false)
      (.response false) (.networkError "Failed to fetch") (.ok (.value [])) rfl rfl rfl
      rfl).2.2.2.2.1⟩

/-! ## Successful delete -/

theorem reloads_fetchWorkers (r : ListResult) (s : State) :
    reloads (fetchWorkers r s).trace = 1 := by
  simp [fetchWorkers_trace, reloads]

/-- Delete answered by a success response whose body parses: the callback is
called with `null` exactly when the selected worker has the deleted id, the
overlay is closed and one reload follows the DELETE request. -/
theorem handleDeleteWorker_parsed_success (props : Props) (workerId : WorkerId)
    (data : Parsed) (reload : ListResult) (s : State) :
    (selections (handleDeleteWorker props workerId (.response true (.value data)) reload s).trace
        = if props.selectedWorker.map Worker.id = some workerId then [none] else []) ∧
      (handleDeleteWorker props workerId (.response true (.value data)) reload s).state.showDeleteConfirm
        = none ∧
      requests (handleDeleteWorker props workerId (.response true (.value data)) reload s).trace
        = [deleteRequest workerId, listRequest] := by
  rw [handleDeleteWorker_of_ok props workerId (.response true (.value data)) reload s rfl,
    fetchWorkers_trace]
  by_cases h : props.selectedWorker.map Worker.id = some workerId
  · simp [h, selections, requests]
  · simp [h, selections, requests]

/-- C3, behaviour of the code at the failing input: worker one is selected
and pending, the DELETE request is answered by a success response with an
empty body (so `response.json()` rejects at line 81, before `response.ok` is
read).  The handler emits the DELETE request alone: the selection callback is
not called, no reload is issued, the pending id stays and the error slot
receives the parse error. -/
theorem delete_success_unparsed_body_selected :
    (clickConfirmDelete ⟨some asha⟩ (.response true (.reject "Unexpected end of JSON input"))
        (.ok (.value [bala])) confirming).trace = [.request (deleteRequest (.num 1))] ∧
      selections (clickConfirmDelete ⟨some asha⟩
        (.response true (.reject "Unexpected end of JSON input"))
        (.ok (.value [bala])) confirming).trace = [] ∧
      (clickConfirmDelete ⟨some asha⟩ (.response true (.reject "Unexpected end of JSON input"))
        (.ok (.value [bala])) confirming).state.showDeleteConfirm = some (.num 1) ∧
      (clickConfirmDelete ⟨some asha⟩ (.response true (.reject "Unexpected end of JSON input"))
        (.ok (.value [bala])) confirming).state.error = some "Unexpected end of JSON input" := by
  decide

/-! ## Reload after a mutation -/

/-- Add and status change: a success response is followed by exactly one
reload, after the mutating request; a failure by none. -/
theorem add_and_status_reloads (newWorker : NewWorker) (workerId : WorkerId)
    (newStatus : String) (r : MutationResult) (reload : ListResult) (s : State) :
    requests (handleAddWorker newWorker r reload s).trace
        = (if r.succeeded then [addRequest newWorker, listRequest] else [addRequest newWorker]) ∧
      requests (handleStatusChange workerId newStatus r reload s).trace
        = (if r.succeeded then [statusRequest workerId newStatus, listRequest]
            else [statusRequest workerId newStatus]) ∧
      reloads (handleAddWorker newWorker r reload s).trace = (if r.succeeded then 1 else 0) ∧
      reloads (handleStatusChange workerId newStatus r reload s).trace
        = (if r.succeeded then 1 else 0) := by
  cases r with
  | networkError m =>
    simp [handleAddWorker, handleStatusChange, MutationResult.succeeded, requests, reloads,
      listRequest, addRequest, statusRequest]
  | response ok =>
    cases ok <;>
    simp [handleAddWorker, handleStatusChange, MutationResult.succeeded, requests, reloads,
      listRequest, addRequest, statusRequest, fetchWorkers_trace]

/-- After a mutation whose reload succeeds the collection is the payload of
the reload. -/
theorem workers_after_reload (props : Props) (newWorker : NewWorker) (workerId : WorkerId)
    (newStatus : String) (data : Parsed) (payload : List Worker) (s : State) :
    (handleAddWorker newWorker (.response true) (.ok (.value payload)) s).state.workers = payload ∧
      (handleStatusChange workerId newStatus (.response true) (.ok (.value payload)) s).state.workers
        = payload ∧
      (handleDeleteWorker props workerId (.response true (.value data))
        (.ok (.value payload)) s).state.workers = payload := by
  refine ⟨rfl, rfl, ?_⟩
  rw [handleDeleteWorker_of_ok props workerId (.response true (.value data))
    (.ok (.value payload)) s rfl]
  rfl

/-- C4, behaviour of the code at the failing input: the DELETE request for
worker two is answered by a success response with an empty body.  The
response is a success, yet the trace holds no `GET /api/workers` and the
collection still lists the deleted worker. -/
theorem delete_success_unparsed_body_no_reload :
    DeleteResult.succeeded (.response true (.reject "Unexpected end of JSON input")) = true ∧
      reloads (handleDeleteWorker ⟨none⟩ (.num 2)
        (.response true (.reject "Unexpected end of JSON input")) (.ok (.value [asha])) loaded).trace
        = 0 ∧
      requests (handleDeleteWorker ⟨none⟩ (.num 2)
        (.response true (.reject "Unexpected end of JSON input")) (.ok (.value [asha])) loaded).trace
        = [deleteRequest (.num 2)] ∧
      (handleDeleteWorker ⟨none⟩ (.num 2)
        (.response true (.reject "Unexpected end of JSON input")) (.ok (.value [asha])) loaded).state.workers
        = [asha, bala] := by
  decide

/-! ## The row action menu -/

/-- C5: the row action menu is a state machine over `activeDropdown`.  In
every state at most one id has its menu open, and a row renders a menu
exactly when its id is the stored one; with A's menu open, clicking the
trigger of a different worker B leaves B's menu as the only open one;
clicking the trigger of the worker whose menu is open closes it; clicking a
trigger while closed opens exactly that worker's menu.  A trigger click
emits nothing. -/
theorem menu_state_machine (props : Props) (s : State) (a b : Worker) (x y : WorkerId) :
    (s.activeDropdown = some x → s.activeDropdown = some y → x = y) ∧
      ((renderRow props s a).menu.isSome = true ↔ s.activeDropdown = some a.id) ∧
      (a.id ≠ b.id → s.activeDropdown = some a.id →
        ((clickMenuTrigger b s).state.activeDropdown = some x ↔ x = b.id)) ∧
      (s.activeDropdown = some a.id → (clickMenuTrigger a s).state.activeDropdown = none) ∧
      (s.activeDropdown = none →
        ((clickMenuTrigger a s).state.activeDropdown = some x ↔ x = a.id)) ∧
      (clickMenuTrigger a s).trace = [] := by
  refine ⟨?_, ?_, ?_, ?_, ?_, rfl⟩
  · intro hx hy
    rw [hx] at hy
    exact Option.some.inj hy
  · unfold renderRow
    by_cases h : s.activeDropdown = some a.id <;> simp [h]
  · intro hab ha
    have hne : ¬ (some a.id = some b.id) := fun h => hab (Option.some.inj h)
    simp [clickMenuTrigger, ha, hne, eq_comm]
  · intro ha
    simp [clickMenuTrigger, ha]
  · intro hn
    simp [clickMenuTrigger, hn, eq_comm]

/-- C5 at a concrete input: the menu of worker one is open and the trigger
of worker two is clicked. -/
theorem menu_state_machine_witness :
    asha.id ≠ bala.id ∧
      ((clickMenuTrigger bala { loaded with activeDropdown := some (.num 1) }).state.activeDropdown
        = some (.num 2) ↔ WorkerId.num 2 = bala.id) :=
  ⟨by decide,
    (menu_state_machine ⟨none⟩ { loaded with activeDropdown := some (.num 1) } asha bala
      (.num 2) (.num 2)).2.2.1 (by decide) rfl⟩

/-! ## Requesting a delete -/

theorem overlay_of_render (props : Props) (s : State) (id : WorkerId)
    (h : (render props s).overlay = some id) :
    renderOverlaySlot s.showDeleteConfirm = .overlay id := by
  unfold render at h
  by_cases hl : s.loading = true
  · simp [hl, View.overlay] at h
  · simp only [hl] at h
    cases he : s.error with
    | none =>
      simp only [he, renderPanel] at h
      cases hs : renderOverlaySlot s.showDeleteConfirm <;> simp_all [View.overlay]
    | some e =>
      by_cases hempty : e = ""
      · simp only [he, hempty, renderPanel] at h
        cases hs : renderOverlaySlot s.showDeleteConfirm <;> simp_all [View.overlay]
      · simp [he, hempty, View.overlay] at h

theorem overlay_of_panel (props : Props) (s : State) (id : WorkerId)
    (hp : (render props s).hasAddButton = true)
    (h : renderOverlaySlot s.showDeleteConfirm = .overlay id) :
    (render props s).overlay = some id := by
  unfold render at hp ⊢
  by_cases hl : s.loading = true
  · simp [hl, View.hasAddButton] at hp
  · simp only [hl] at hp ⊢
    cases he : s.error with
    | none => simp [renderPanel, h, View.overlay]
    | some e =>
      by_cases hempty : e = ""
      · simp [hempty, renderPanel, h, View.overlay]
      · simp [he, hempty, View.hasAddButton] at hp

theorem handleStatusChange_pending (workerId : WorkerId) (newStatus : String)
    (patch : MutationResult) (reload : ListResult) (s : State) :
    (handleStatusChange workerId newStatus patch reload s).state.showDeleteConfirm
      = s.showDeleteConfirm := by
  cases patch with
  | networkError m => rfl
  | response ok =>
    cases ok
    · rfl
    · exact (fetchWorkers_frame reload s).2.2.1

/-- Choosing Delete for a worker with a truthy id, from a state that renders
the panel: no request, menu closed, collection unchanged, overlay shown for
that worker. -/
theorem clickDelete_truthy (props : Props) (worker : Worker) (s : State)
    (hp : (render props s).hasAddButton = true) (ht : worker.id.truthy = true) :
    (clickDelete worker s).trace = [] ∧
      (clickDelete worker s).state.activeDropdown = none ∧
      (clickDelete worker s).state.workers = s.workers ∧
      (render props (clickDelete worker s).state).overlay = some worker.id := by
  refine ⟨rfl, rfl, rfl, ?_⟩
  apply overlay_of_panel
  · unfold render at hp ⊢
    by_cases hl : s.loading = true
    · simp [hl, View.hasAddButton] at hp
    · simp only [hl] at hp
      cases he : s.error with
      | none => simp [clickDelete, hl, he, renderPanel, View.hasAddButton]
      | some e =>
        by_cases hempty : e = ""
        · simp [clickDelete, hl, he, hempty, renderPanel, View.hasAddButton]
        · simp [he, hempty, View.hasAddButton] at hp
  · simp [clickDelete, renderOverlaySlot, ht]

/-- From a state that renders the panel without the overlay, a row-body
click, a menu trigger click, Set Active and Set Inactive all lead to states
whose output has no overlay. -/
theorem overlay_stays_hidden (props next : Props) (worker : Worker) (patch : MutationResult)
    (reload : ListResult) (s : State) (hp : (render props s).hasAddButton = true)
    (hidden : (render props s).overlay = none) :
    (render next (clickRowBody worker s).state).overlay = none ∧
      (render next (clickMenuTrigger worker s).state).overlay = none ∧
      (render next (clickSetActive worker patch reload s).state).overlay = none ∧
      (render next (clickSetInactive worker patch reload s).state).overlay = none := by
  have key : ∀ t : State, t.showDeleteConfirm = s.showDeleteConfirm →
      (render next t).overlay = none := by
    intro t ht
    cases hov : (render next t).overlay with
    | none => rfl
    | some id =>
      have h1 := overlay_of_render next t id hov
      rw [ht] at h1
      have h2 := overlay_of_panel props s id hp h1
      rw [hidden] at h2
      cases h2
  exact ⟨key _ rfl, key _ rfl, key _ (handleStatusChange_pending _ _ _ _ _),
    key _ (handleStatusChange_pending _ _ _ _ _)⟩

/-- C6, behaviour of the code at the failing inputs: the menu of the worker
with id zero (then of the worker with the empty-string id) is open and the
panel is rendered; choosing Delete stores the id in `showDeleteConfirm` and
closes the menu without any request, but the test of line 192 is a
truthiness test, so the output shows no confirmation overlay: for zero the
slot renders the text of the number, for the empty string nothing. -/
theorem delete_falsy_id_no_overlay :
    (clickDelete zero { falsyRoster with activeDropdown := some (.num 0) }).state.showDeleteConfirm
        = some (.num 0) ∧
      (clickDelete zero { falsyRoster with activeDropdown := some (.num 0) }).trace = [] ∧
      (render ⟨none⟩
        (clickDelete zero { falsyRoster with activeDropdown := some (.num 0) }).state).overlay
        = none ∧
      render ⟨none⟩ (clickDelete zero { falsyRoster with activeDropdown := some (.num 0) }).state
        = .panel false
            [renderRow ⟨none⟩ falsyRoster zero, renderRow ⟨none⟩ falsyRoster blank] (.text "0") ∧
      (clickDelete blank { falsyRoster with activeDropdown := some (.str "") }).state.showDeleteConfirm
        = some (.str "") ∧
      (render ⟨none⟩
        (clickDelete blank { falsyRoster with activeDropdown := some (.str "") }).state).overlay
        = none ∧
      render ⟨none⟩ (clickDelete blank { falsyRoster with activeDropdown := some (.str "") }).state
        = .panel false
            [renderRow ⟨none⟩ falsyRoster zero, renderRow ⟨none⟩ falsyRoster blank] .nothing := by
  decide

/-! ## Failed status change -/

/-- C7: a status change (any worker id, any target status, in particular
Active and Inactive) answered by a non-success response or by a transport
failure sets the error slot to the message `Failed to update status`, which
contains the phrase "failed to update status" up to capitalisation, leaves
`activeDropdown` and the collection as they were, and emits the PATCH request
alone, so no reload. -/
theorem failed_status_change (workerId : WorkerId) (newStatus : String) (patch : MutationResult)
    (reload : ListResult) (s : State) (hfail : patch.succeeded = false) :
    (handleStatusChange workerId newStatus patch reload s).state.error
        = some "Failed to update status" ∧
      "failed to update status".toList <:+: lowerChars "Failed to update status" ∧
      (handleStatusChange workerId newStatus patch reload s).state.activeDropdown
        = s.activeDropdown ∧
      (handleStatusChange workerId newStatus patch reload s).state.workers = s.workers ∧
      (handleStatusChange workerId newStatus patch reload s).trace
        = [.request (statusRequest workerId newStatus)] ∧
      reloads (handleStatusChange workerId newStatus patch reload s).trace = 0 := by
  have hlow : "failed to update status".toList <:+: lowerChars "Failed to update status" :=
    ⟨[], [], by decide⟩
  cases patch with
  | networkError m =>
    refine ⟨rfl, hlow, rfl, rfl, rfl, ?_⟩
    simp [handleStatusChange, reloads, statusRequest, listRequest]
  | response ok =>
    have hok : ok = false := hfail
    subst hok
    refine ⟨rfl, hlow, rfl, rfl, rfl, ?_⟩
    simp [handleStatusChange, reloads, statusRequest, listRequest]

/-- C7 at the scenario of the specification: the status change of worker two
to Active is answered by a non-success response. -/
theorem failed_status_change_witness :
    MutationResult.succeeded (.response false) = false ∧
      (handleStatusChange (.num 2) "Active" (.response false) (.ok (.value [])) loaded).state.error
        = some "Failed to update status" ∧
      (handleStatusChange (.num 2) "Active" (.response false) (.ok (.value [])) loaded).state.workers
        = [asha, bala] :=
  ⟨rfl,
    (failed_status_change (.num 2) "Active" (.response false) (.ok (.value [])) loaded rfl).1,
    (failed_status_change (.num 2) "Active" (.response false) (.ok (.value [])) loaded rfl).2.2.2.1⟩

/-! ## The collection loader -/

/-- C8, as stated, fails: a non-success response whose body does not parse
(an empty body here) carries no error string, yet the error slot is the
lead-in followed by the message of the parse error, not by the generic
`Failed to fetch workers`. -/
theorem fetchWorkers_failure_counterexample :
    ListResult.succeeded (.notOk (.reject "Unexpected end of JSON input")) = false ∧
      (fetchWorkers (.notOk (.reject "Unexpected end of JSON input")) loaded).state.error
        = some "Failed to load workers: Unexpected end of JSON input" ∧
      (fetchWorkers (.notOk (.reject "Unexpected end of JSON input")) loaded).state.error
        ≠ some "Failed to load workers: Failed to fetch workers" := by
  decide

/-- C8, amended: every failed list request (a transport failure, a
non-success response, or a success response whose body does not parse)
leaves the collection as it was, clears the loading flag and sets the error
slot to the fixed lead-in followed by the message of the error thrown.  That
message is: the error string `x` of a parsed non-success body when it is
non-empty; the generic `Failed to fetch workers` when the parsed body has no
error string or an empty one; the message `m` of the TypeError when the body
parses to null; the message `m` of the parse error when the body does not
parse; the message `m` of the transport failure. -/
theorem fetchWorkers_failure (s : State) (r : ListResult) (x m : String)
    (hfail : r.succeeded = false) :
    ((fetchWorkers r s).state.workers = s.workers ∧
        (fetchWorkers r s).state.loading = false ∧
        ∃ msg, fetchWorkersTry r = .error msg ∧
          (fetchWorkers r s).state = { s with
            error := some ("Failed to load workers: " ++ msg), loading := false }) ∧
      (x ≠ "" → (fetchWorkers (.notOk (.value (.fields (some x)))) s).state.error
          = some ("Failed to load workers: " ++ x)) ∧
      (fetchWorkers (.notOk (.value (.fields none))) s).state.error
          = some "Failed to load workers: Failed to fetch workers" ∧
      (fetchWorkers (.notOk (.value (.fields (some "")))) s).state.error
          = some "Failed to load workers: Failed to fetch workers" ∧
      (fetchWorkers (.notOk (.value (.null m))) s).state.error
          = some ("Failed to load workers: " ++ m) ∧
      (fetchWorkers (.notOk (.reject m)) s).state.error
          = some ("Failed to load workers: " ++ m) ∧
      (fetchWorkers (.ok (.reject m)) s).state.error
          = some ("Failed to load workers: " ++ m) ∧
      (fetchWorkers (.networkError m) s).state.error
          = some ("Failed to load workers: " ++ m) := by
  refine ⟨?_, ?_, ?_, ?_, rfl, rfl, rfl, rfl⟩
  · have hmsg : ∃ msg, fetchWorkersTry r = .error msg := by
      cases r with
      | networkError t => exact ⟨t, rfl⟩
      | notOk body =>
        cases body with
        | reject t => exact ⟨t, rfl⟩
        | value data => exact ⟨_, rfl⟩
      | ok body =>
        cases body with
        | reject t => exact ⟨t, rfl⟩
        | value data => cases hfail
    obtain ⟨msg, hmsg⟩ := hmsg
    have hs : (fetchWorkers r s).state = { s with
        error := some ("Failed to load workers: " ++ msg), loading := false } := by
      simp [fetchWorkers, hmsg]
    exact ⟨by rw [hs], by rw [hs], msg, hmsg, hs⟩
  · intro hx
    simp [fetchWorkers, fetchWorkersTry, Parsed.thrown, orElse, hx]
  · simp [fetchWorkers, fetchWorkersTry, Parsed.thrown, orElse]
  · simp [fetchWorkers, fetchWorkersTry, Parsed.thrown, orElse]

/-- The amended C8 at a concrete input: a non-success response carrying an
error string. -/
theorem fetchWorkers_failure_witness :
    ListResult.succeeded (.notOk (.value (.fields (some "database is locked")))) = false ∧
      (fetchWorkers (.notOk (.value (.fields (some "database is locked")))) loaded).state.workers
        = [asha, bala] ∧
      (fetchWorkers (.notOk (.value (.fields (some "database is locked")))) loaded).state.error
        = some ("Failed to load workers: " ++ "database is locked") :=
  ⟨rfl,
    (fetchWorkers_failure loaded (.notOk (.value (.fields (some "database is locked"))))
      "database is locked" "Failed to fetch" rfl).1.1,
    (fetchWorkers_failure loaded (.notOk (.value (.fields (some "database is locked"))))
      "database is locked" "Failed to fetch" rfl).2.1 (by decide)⟩

/-- C9: a successful list response with payload `p` yields, from any prior
state, `workers = p`, no error and the loading flag cleared; the output is
the panel, with exactly `length p` rows, the rows being the images of the
elements of `p` in payload order, each showing the name, designation, daily
wage and status of its element. -/
theorem fetchWorkers_success (props : Props) (s : State) (p : List Worker) :
    (fetchWorkers (.ok (.value p)) s).state.workers = p ∧
      (fetchWorkers (.ok (.value p)) s).state.error = none ∧
      (fetchWorkers (.ok (.value p)) s).state.loading = false ∧
      render props (fetchWorkers (.ok (.value p)) s).state
        = .panel s.isModalOpen (p.map (renderRow props (fetchWorkers (.ok (.value p)) s).state))
            (renderOverlaySlot s.showDeleteConfirm) ∧
      (render props (fetchWorkers (.ok (.value p)) s).state).rows.length = p.length ∧
      (render props (fetchWorkers (.ok (.value p)) s).state).rows.map
          (fun r => (r.name, r.designation, r.daily_wage, r.status))
        = p.map (fun w => (w.name, w.designation, w.daily_wage, w.status)) ∧
      (render props (fetchWorkers (.ok (.value p)) s).state).rows.map Row.key
        = p.map Worker.id := by
  have hr : render props (fetchWorkers (.ok (.value p)) s).state
      = .panel s.isModalOpen (p.map (renderRow props (fetchWorkers (.ok (.value p)) s).state))
          (renderOverlaySlot s.showDeleteConfirm) := by
    simp [render, renderPanel, fetchWorkers, fetchWorkersTry]
  refine ⟨rfl, rfl, rfl, hr, ?_, ?_, ?_⟩
  · rw [hr]; simp [View.rows]
  · rw [hr]; simp [View.rows, renderRow, Function.comp_def]
  · rw [hr]; simp [View.rows, renderRow, Function.comp_def]

/-! ## Cancelling the confirmation -/

/-- C10: Cancel emits nothing (no request, no call of the selection
callback), sets `showDeleteConfirm` to null and leaves the collection, the
error slot, the loading flag, the open-menu id and the add-dialog flag as
they were. -/
theorem cancel_changes_only_pending (s : State) :
    (clickCancel s).trace = [] ∧
      requests (clickCancel s).trace = [] ∧
      selections (clickCancel s).trace = [] ∧
      (clickCancel s).state.showDeleteConfirm = none ∧
      (clickCancel s).state.workers = s.workers ∧
      (clickCancel s).state.error = s.error ∧
      (clickCancel s).state.loading = s.loading ∧
      (clickCancel s).state.activeDropdown = s.activeDropdown ∧
      (clickCancel s).state.isModalOpen = s.isModalOpen :=
  ⟨rfl, rfl, rfl, rfl, rfl, rfl, rfl, rfl, rfl⟩

end WorkerList
